import Mathlib

/-!
Verification of the drag-and-drop coordination layer of the ss-fusion UI library:
`src/utils/drag.ts` (the DragCoordinator singleton) and `src/molecules/DropZone.ts`.

The embedding is a direct transliteration of the TypeScript source. Roblox
`Instance` references are modelled by numeric identifiers, `Vector2` by integer
pixel coordinates. Each mutator returns the new module state together with the
list of event firings it performs, in order; a firing `(ch, s)` records that
channel `ch` (the `changed` or `ended` BindableEvent) fired while the stored
state was `s` — handlers registered through `onChanged`/`onEnded` receive
`state.get()` at dispatch time, which in the synchronous model is exactly `s`.
-/

namespace SSFusion

/-- 2D point in screen space (integer pixel coordinates). -/
structure Vector2 where
  x : Int
  y : Int
deriving DecidableEq, Repr

/-- `DragPayload` from `utils/drag.ts`: a type tag used for accept filtering,
optional opaque data, and an optional source instance. -/
structure DragPayload where
  type : String
  data : Option String := none
  source : Option Nat := none
deriving DecidableEq, Repr

/-- `DragState` from `utils/drag.ts`, field order as in the interface. -/
structure DragState where
  active : Bool
  position : Option Vector2 := none
  payload : Option DragPayload := none
  source : Option Nat := none
deriving DecidableEq, Repr

/-- The module-level initial state: `Value<DragState>({ active: false })`. -/
def initState : DragState := { active := false }

/-- The two BindableEvents of the module: `changed` and `ended`. -/
inductive Chan
  | changed
  | ended
deriving DecidableEq, Repr

/-- `startDrag(payload, position, source?)`: unconditionally overwrites the
session with `{active: true, payload, position, source: source ?? payload.source}`
and fires `changed`. -/
def startDrag (p : DragPayload) (pos : Vector2) (src : Option Nat) (_s : DragState) :
    DragState × List (Chan × DragState) :=
  let s' : DragState :=
    { active := true, position := some pos, payload := some p,
      source := src.orElse fun _ => p.source }
  (s', [(Chan.changed, s')])

/-- `update(position)`: a no-op when no session is active; otherwise replaces
`position` (spread `{...curr, position}`) and fires `changed`. -/
def update (pos : Vector2) (s : DragState) : DragState × List (Chan × DragState) :=
  if s.active then
    let s' : DragState := { s with position := some pos }
    (s', [(Chan.changed, s')])
  else
    (s, [])

/-- `endDrag()`: a no-op when no session is active; otherwise resets the state
to `{active: false}` and fires `ended` then `changed`, in that order. -/
def endDrag (s : DragState) : DragState × List (Chan × DragState) :=
  if s.active then
    let s' : DragState := { active := false }
    (s', [(Chan.ended, s'), (Chan.changed, s')])
  else
    (s, [])

/-- Subscriber-level dispatch: firing a channel invokes each connection made on
that channel, passing it `state.get()` at dispatch time. Subscribers are
identified by numbers; `changedSubs` are the `onChanged` connections and
`endedSubs` the `onEnded` connections. The returned list is the complete,
synchronous sequence of handler invocations caused by the given firings. -/
def dispatch (changedSubs endedSubs : List Nat) (ns : List (Chan × DragState)) :
    List (Nat × Chan × DragState) :=
  ns.flatMap fun n =>
    (match n.1 with
      | Chan.changed => changedSubs
      | Chan.ended => endedSubs).map fun i => (i, n.1, n.2)

/-! ### Coordinator lifecycle calls as a sequence -/

/-- One external lifecycle call on the coordinator. -/
inductive Call
  | start (p : DragPayload) (pos : Vector2) (src : Option Nat)
  | update (pos : Vector2)
  | endDrag
deriving Repr

/-- Execute one lifecycle call. -/
def coordStep (s : DragState) : Call → DragState × List (Chan × DragState)
  | Call.start p pos src => startDrag p pos src s
  | Call.update pos => update pos s
  | Call.endDrag => endDrag s

/-- Execute a sequence of lifecycle calls, concatenating the firings. -/
def coordRun (s : DragState) : List Call → DragState × List (Chan × DragState)
  | [] => (s, [])
  | c :: cs =>
    let r1 := coordStep s c
    let r2 := coordRun r1.1 cs
    (r2.1, r1.2 ++ r2.2)

/-! ## C3: update/endDrag on an inactive session are silent no-ops -/

/-- C3: when `active` is `false`, both `update(position)` and `endDrag()` leave
the state unchanged and fire no event at all, so no `onChanged` and no `onEnded`
subscriber is invoked. -/
theorem C3_inactive_calls_are_noops (s : DragState) (pos : Vector2)
    (h : s.active = false) :
    update pos s = (s, []) ∧ endDrag s = (s, []) := by
  constructor <;> simp [update, endDrag, h]

/-- Witness for C3 at the initial state. -/
theorem C3_inactive_calls_are_noops_witness :
    update ⟨0, 0⟩ initState = (initState, []) ∧ endDrag initState = (initState, []) :=
  C3_inactive_calls_are_noops initState ⟨0, 0⟩ rfl

/-! ## C4: update replaces only the position field -/

/-- C4: on an active session, `update(position)` replaces the `position` field
and preserves `payload`, `source` and `active` exactly. -/
theorem C4_update_replaces_only_position (s : DragState) (pos : Vector2)
    (h : s.active = true) :
    (update pos s).1.payload = s.payload ∧ (update pos s).1.source = s.source ∧
    (update pos s).1.position = some pos ∧ (update pos s).1.active = true := by
  simp [update, h]

/-- Witness for C4 on a concrete active session. -/
theorem C4_update_replaces_only_position_witness :
    (update ⟨7, 8⟩ ⟨true, some ⟨1, 2⟩, some ⟨"item", none, none⟩, some 5⟩).1.payload =
        some ⟨"item", none, none⟩ ∧
    (update ⟨7, 8⟩ ⟨true, some ⟨1, 2⟩, some ⟨"item", none, none⟩, some 5⟩).1.source = some 5 ∧
    (update ⟨7, 8⟩ ⟨true, some ⟨1, 2⟩, some ⟨"item", none, none⟩, some 5⟩).1.position =
        some ⟨7, 8⟩ ∧
    (update ⟨7, 8⟩ ⟨true, some ⟨1, 2⟩, some ⟨"item", none, none⟩, some 5⟩).1.active = true :=
  C4_update_replaces_only_position ⟨true, some ⟨1, 2⟩, some ⟨"item", none, none⟩, some 5⟩
    ⟨7, 8⟩ rfl

/-! ## C9: startDrag is unconditional and notifies every change-subscriber -/

/-- C9: from any state — in particular one with an already-active session —
`startDrag` overwrites the session with
`{active: true, payload, position, source: source ?? payload.source}` and its
single `changed` firing synchronously invokes every change-subscriber (and no
end-subscriber) with that new state. -/
theorem C9_startDrag_unconditional_overwrite (s : DragState) (p : DragPayload)
    (pos : Vector2) (src : Option Nat) (changedSubs endedSubs : List Nat) :
    startDrag p pos src s =
      (⟨true, some pos, some p, src.orElse fun _ => p.source⟩,
        [(Chan.changed, ⟨true, some pos, some p, src.orElse fun _ => p.source⟩)]) ∧
    dispatch changedSubs endedSubs (startDrag p pos src s).2 =
      changedSubs.map fun i =>
        (i, Chan.changed, ⟨true, some pos, some p, src.orElse fun _ => p.source⟩) := by
  constructor
  · rfl
  · simp [startDrag, dispatch]

/-! ## C2: within endDrag, end-subscribers fire before change-subscribers -/

/-- C2: on an active session, the complete synchronous invocation sequence
performed inside `endDrag()` is: every `onEnded` subscriber in order, followed
by every `onChanged` subscriber in order — so every end-notification precedes
every change-notification, and both sets are finished when `endDrag` returns
(the whole sequence is the call's own dispatch list; nothing is deferred). -/
theorem C2_ended_fires_before_changed (s : DragState) (h : s.active = true)
    (changedSubs endedSubs : List Nat) :
    dispatch changedSubs endedSubs (endDrag s).2 =
      endedSubs.map (fun i => (i, Chan.ended, (⟨false, none, none, none⟩ : DragState))) ++
      changedSubs.map (fun i => (i, Chan.changed, (⟨false, none, none, none⟩ : DragState))) := by
  simp [endDrag, dispatch, h]

/-- Witness for C2 with two end-subscribers and two change-subscribers. -/
theorem C2_ended_fires_before_changed_witness :
    dispatch [10, 11] [20, 21] (endDrag ⟨true, some ⟨1, 2⟩, some ⟨"item", none, none⟩, none⟩).2 =
      [(20, Chan.ended, (⟨false, none, none, none⟩ : DragState)),
       (21, Chan.ended, (⟨false, none, none, none⟩ : DragState)),
       (10, Chan.changed, (⟨false, none, none, none⟩ : DragState)),
       (11, Chan.changed, (⟨false, none, none, none⟩ : DragState))] :=
  C2_ended_fires_before_changed ⟨true, some ⟨1, 2⟩, some ⟨"item", none, none⟩, none⟩ rfl
    [10, 11] [20, 21]

/-! ## C10: onEnded subscribers observe the already-cleared state -/

/-- C10: when `endDrag()` ends an active session, every subscriber invocation it
causes — in particular every `onEnded` handler — receives the already-cleared
state `{active := false}` with no payload, position or source: the state is
reset before `ended.Fire()`, so handlers re-reading the session cannot recover
the dropped payload. -/
theorem C10_ended_handlers_see_cleared_state (s : DragState) (h : s.active = true)
    (changedSubs endedSubs : List Nat) :
    (dispatch changedSubs endedSubs (endDrag s).2).all
      (fun x => x.2.2 == (⟨false, none, none, none⟩ : DragState)) = true := by
  simp [endDrag, dispatch, h, List.all_eq_true]

/-- Witness for C10 on a concrete active session with one subscriber on each
channel. -/
theorem C10_ended_handlers_see_cleared_state_witness :
    (dispatch [0] [1] (endDrag ⟨true, some ⟨3, 4⟩, some ⟨"item", some "x", none⟩, some 9⟩).2).all
      (fun x => x.2.2 == (⟨false, none, none, none⟩ : DragState)) = true :=
  C10_ended_handlers_see_cleared_state
    ⟨true, some ⟨3, 4⟩, some ⟨"item", some "x", none⟩, some 9⟩ rfl [0] [1]

/-! ## C1: when is the session active after a call sequence? -/

/-- Whether a lifecycle call is an `update`. -/
def isUpdate : Call → Bool
  | Call.update _ => true
  | _ => false

/-- The claim's side condition: the most recent lifecycle call of the sequence
is a `startDrag` or an `update` (there is nothing after it, in particular no
`endDrag`). -/
def lastCallIsStartOrUpdate (cs : List Call) : Bool :=
  match cs.getLast? with
  | some (Call.start _ _ _) => true
  | some (Call.update _) => true
  | _ => false

/-- The most recent call of the sequence that is not an `update`, if any. -/
def lastNonUpdate (cs : List Call) : Option Call :=
  (cs.filter fun c => !(isUpdate c)).getLast?

/-- Specification of the session's activity: the sequence contains a
`startDrag` or `endDrag` call and the most recent such call is a `startDrag`. -/
def activeSpec (cs : List Call) : Bool :=
  match lastNonUpdate cs with
  | some (Call.start _ _ _) => true
  | _ => false

/-- Counterexample to C1 as stated: after the one-call sequence `[update p]`
the most recent lifecycle call is an `update` not followed by `endDrag`, yet
`getState().active` is `false` — `update` on an inactive session is a no-op
and never activates the session. -/
theorem C1_counterexample :
    lastCallIsStartOrUpdate [Call.update ⟨0, 0⟩] = true ∧
    (coordRun initState [Call.update ⟨0, 0⟩]).1.active = false :=
  ⟨rfl, rfl⟩

/-- Running a sequence extended by one call steps the final state once more. -/
theorem coordRun_append (s : DragState) (cs : List Call) (c : Call) :
    coordRun s (cs ++ [c]) =
      ((coordStep (coordRun s cs).1 c).1,
        (coordRun s cs).2 ++ (coordStep (coordRun s cs).1 c).2) := by
  induction cs generalizing s with
  | nil => simp [coordRun]
  | cons a l ih => simp [coordRun, ih]

/-- C1 amended: after any sequence of `startDrag`/`update`/`endDrag` calls,
`getState().active` is `true` iff the sequence contains at least one call that
is not an `update` and the most recent such call is a `startDrag`. (`update`
alone never activates a session, so the claim's "startDrag or update" test is
wrong exactly on sequences whose last activity is a stray update.) -/
theorem C1_amended_active_iff_last_nonupdate_is_start (cs : List Call) :
    (coordRun initState cs).1.active = activeSpec cs := by
  induction cs using List.reverseRecOn with
  | nil => rfl
  | append_singleton l c ih =>
    cases c with
    | start p pos src =>
      simp [coordRun_append, coordStep, startDrag, activeSpec, lastNonUpdate,
        List.filter_append, isUpdate]
    | update pos =>
      rw [coordRun_append]
      have hspec : activeSpec (l ++ [Call.update pos]) = activeSpec l := by
        simp [activeSpec, lastNonUpdate, List.filter_append, isUpdate]
      rw [hspec, ← ih]
      cases h : (coordRun initState l).1.active <;> simp [coordStep, update, h]
    | endDrag =>
      rw [coordRun_append]
      have hspec : activeSpec (l ++ [Call.endDrag]) = false := by
        simp [activeSpec, lastNonUpdate, List.filter_append, isUpdate]
      rw [hspec]
      cases h : (coordRun initState l).1.active <;> simp [coordStep, endDrag, h]

/-! ### DropZone (`molecules/DropZone.ts`) -/

/-- The `accepts` prop: absent (accept everything), a list of type tags, or a
predicate over the payload. -/
inductive Accepts
  | any
  | tags (ts : List String)
  | pred (f : DragPayload → Bool)

/-- `acceptsPayload` from `DropZone.ts`: `false` without a payload, `true`
without an accepts rule, else dispatch on the rule's shape. -/
def acceptsPayload (a : Accepts) (p : Option DragPayload) : Bool :=
  match p with
  | none => false
  | some payload =>
    match a with
    | Accepts.any => true
    | Accepts.pred f => f payload
    | Accepts.tags ts => ts.contains payload.type

/-- A zone's fixed configuration: its accepts rule and the frame's
`AbsolutePosition`/`AbsoluteSize` (read live on each broadcast; modelled as
constants since the claims keep the frame still). -/
structure ZoneCfg where
  accepts : Accepts
  absPos : Vector2
  absSize : Vector2

/-- The zone's mutable closure state: the `inside` flag and `lastPayload`. -/
structure ZoneState where
  inside : Bool
  lastPayload : Option DragPayload
deriving DecidableEq, Repr

/-- The zone state at mount: `inside = false`, no cached payload. -/
def initZone : ZoneState := ⟨false, none⟩

/-- The rectangle test from the `onChanged` handler:
`p.X >= absPos.X && p.X <= absPos.X + absSize.X && p.Y >= absPos.Y && p.Y <= absPos.Y + absSize.Y`. -/
def within (z : ZoneCfg) (p : Vector2) : Bool :=
  decide (z.absPos.x ≤ p.x) && decide (p.x ≤ z.absPos.x + z.absSize.x) &&
  decide (z.absPos.y ≤ p.y) && decide (p.y ≤ z.absPos.y + z.absSize.y)

/-- An invocation of one of the zone's user callbacks. -/
inductive ZEvent
  | enter (p : DragPayload)
  | leave (p : DragPayload)
  | drop (p : DragPayload)
deriving DecidableEq, Repr

/-- The zone's `onChanged` handler. Transliterated: if the session is inactive
or has no position, set `inside = false` and return (nothing else); otherwise
compute `ok = within && acceptsPayload`, then either a rising edge (mark
inside, cache the payload, fire `onEnter` if the cache is non-nil), a falling
edge (unmark, fire `onLeave` with the cached payload if non-nil, clear the
cache), or no change. -/
def zoneOnChanged (z : ZoneCfg) (zs : ZoneState) (s : DragState) :
    ZoneState × List ZEvent :=
  match s.active, s.position with
  | true, some p =>
    let ok := within z p && acceptsPayload z.accepts s.payload
    if ok && !zs.inside then
      (⟨true, s.payload⟩,
        match s.payload with
        | some q => [ZEvent.enter q]
        | none => [])
    else if !ok && zs.inside then
      (⟨false, none⟩,
        match zs.lastPayload with
        | some q => [ZEvent.leave q]
        | none => [])
    else
      (zs, [])
  | _, _ => ({ zs with inside := false }, [])

/-- The zone's `onEnded` handler: fire `onDrop` with the cached payload when
marked inside with a cache, then clear the flag and the cache unconditionally.
The broadcast state is received but unused, as in the source. -/
def zoneOnEnded (zs : ZoneState) (_s : DragState) : ZoneState × List ZEvent :=
  ((⟨false, none⟩ : ZoneState),
    if zs.inside then
      match zs.lastPayload with
      | some q => [ZEvent.drop q]
      | none => []
    else [])

/-- Deliver one coordinator firing to the zone's matching handler. -/
def zoneStep (z : ZoneCfg) (zs : ZoneState) : Chan × DragState → ZoneState × List ZEvent
  | (Chan.changed, s) => zoneOnChanged z zs s
  | (Chan.ended, s) => zoneOnEnded zs s

/-- Deliver a list of firings in order, concatenating the callback trace. -/
def zoneRun (z : ZoneCfg) (zs : ZoneState) : List (Chan × DragState) → ZoneState × List ZEvent
  | [] => (zs, [])
  | n :: ns =>
    let r1 := zoneStep z zs n
    let r2 := zoneRun z r1.1 ns
    (r2.1, r1.2 ++ r2.2)

/-- One lifecycle call on the coordinator with a single mounted zone observing
both channels: the coordinator mutates and fires, the zone consumes each
firing in order. -/
def sysStep (z : ZoneCfg) (st : DragState × ZoneState) (c : Call) :
    (DragState × ZoneState) × List ZEvent :=
  let rc := coordStep st.1 c
  let rz := zoneRun z st.2 rc.2
  ((rc.1, rz.1), rz.2)

/-- A sequence of lifecycle calls observed by one zone. -/
def sysRun (z : ZoneCfg) (st : DragState × ZoneState) : List Call → (DragState × ZoneState) × List ZEvent
  | [] => (st, [])
  | c :: cs =>
    let r1 := sysStep z st c
    let r2 := sysRun z r1.1 cs
    (r2.1, r1.2 ++ r2.2)

/-- A concrete payload used by witnesses. -/
def pW : DragPayload := ⟨"item", none, none⟩

/-- A concrete zone spanning x ∈ [0, 100], y ∈ [0, 100] accepting tag "item",
used by witnesses. -/
def zW : ZoneCfg := ⟨Accepts.tags ["item"], ⟨0, 0⟩, ⟨100, 100⟩⟩

/-! ## C6: broadcast with no active session / no position -/

/-- Counterexample to C6 as stated: a zone marked inside with a cached payload
that receives a broadcast with `active = false` fires no `onLeave` at all and
keeps its cached payload — the handler's first branch only clears the `inside`
flag and returns. -/
theorem C6_counterexample :
    (zoneOnChanged zW ⟨true, some pW⟩ ⟨false, none, none, none⟩).2 = [] ∧
    (zoneOnChanged zW ⟨true, some pW⟩ ⟨false, none, none, none⟩).1.lastPayload = some pW :=
  ⟨rfl, rfl⟩

/-- C6 amended: on any broadcast in which the session is not active or carries
no position, the zone's `onChanged` handler clears only the `inside` flag — it
fires no callback (in particular no `onLeave`, even when previously inside)
and leaves the cached payload untouched. -/
theorem C6_amended_inactive_broadcast_clears_only_inside (z : ZoneCfg)
    (zs : ZoneState) (s : DragState) (h : s.active = false ∨ s.position = none) :
    zoneOnChanged z zs s = ({ zs with inside := false }, []) := by
  rcases h with h | h
  · cases hp : s.position <;> simp [zoneOnChanged, h, hp]
  · cases ha : s.active <;> simp [zoneOnChanged, h, ha]

/-- Witness for C6 amended: a previously-inside zone on an inactive broadcast. -/
theorem C6_amended_witness :
    zoneOnChanged zW ⟨true, some pW⟩ ⟨false, none, none, none⟩ = (⟨false, some pW⟩, []) :=
  C6_amended_inactive_broadcast_clears_only_inside zW ⟨true, some pW⟩
    ⟨false, none, none, none⟩ (Or.inl rfl)

/-! ### Step lemmas for the coordinator-plus-zone system -/

/-- Unfolding a system run one call at a time. -/
theorem sysRun_cons (z : ZoneCfg) (st : DragState × ZoneState) (c : Call) (cs : List Call) :
    sysRun z st (c :: cs) =
      ((sysRun z (sysStep z st c).1 cs).1,
        (sysStep z st c).2 ++ (sysRun z (sysStep z st c).1 cs).2) := rfl

/-- A system run over concatenated call lists runs them in sequence. -/
theorem sysRun_append (z : ZoneCfg) (st : DragState × ZoneState) (cs1 cs2 : List Call) :
    sysRun z st (cs1 ++ cs2) =
      ((sysRun z (sysRun z st cs1).1 cs2).1,
        (sysRun z st cs1).2 ++ (sysRun z (sysRun z st cs1).1 cs2).2) := by
  induction cs1 generalizing st with
  | nil => simp [sysRun]
  | cons a l ih => simp [sysRun_cons, ih]

/-- Starting a session at a position outside the zone: the session is created,
the zone stays silent and unmarked. -/
theorem sysStep_start_outside (z : ZoneCfg) (p : DragPayload) (pos0 : Vector2)
    (src : Option Nat) (ds : DragState) (zs : ZoneState) (hzs : zs.inside = false)
    (h0 : within z pos0 = false) :
    sysStep z (ds, zs) (Call.start p pos0 src) =
      ((⟨true, some pos0, some p, src.orElse fun _ => p.source⟩, zs), []) := by
  simp [sysStep, coordStep, startDrag, zoneRun, zoneStep, zoneOnChanged, h0, hzs]

/-- A position update landing outside the zone while the zone is not marked
inside: silent, zone untouched. -/
theorem sysStep_update_outside (z : ZoneCfg) (pos q : Vector2) (pl : Option DragPayload)
    (src' : Option Nat) (zs : ZoneState) (hzs : zs.inside = false)
    (hq : within z q = false) :
    sysStep z (⟨true, some pos, pl, src'⟩, zs) (Call.update q) =
      ((⟨true, some q, pl, src'⟩, zs), []) := by
  simp [sysStep, coordStep, update, zoneRun, zoneStep, zoneOnChanged, hq, hzs]

/-- A position update landing inside the zone with an accepted payload while
the zone is not marked inside: rising edge — the zone marks itself, caches the
payload and fires `onEnter` once. -/
theorem sysStep_update_enter (z : ZoneCfg) (pos q : Vector2) (p : DragPayload)
    (src' : Option Nat) (zs : ZoneState) (hzs : zs.inside = false)
    (hq : within z q = true) (hap : acceptsPayload z.accepts (some p) = true) :
    sysStep z (⟨true, some pos, some p, src'⟩, zs) (Call.update q) =
      ((⟨true, some q, some p, src'⟩, ⟨true, some p⟩), [ZEvent.enter p]) := by
  simp [sysStep, coordStep, update, zoneRun, zoneStep, zoneOnChanged, hq, hap, hzs]

/-- A position update staying inside the zone with an accepted payload while
the zone is already marked inside: no edge, no callback. -/
theorem sysStep_update_stay_inside (z : ZoneCfg) (pos q : Vector2) (p : DragPayload)
    (src' : Option Nat) (lp : Option DragPayload)
    (hq : within z q = true) (hap : acceptsPayload z.accepts (some p) = true) :
    sysStep z (⟨true, some pos, some p, src'⟩, ⟨true, lp⟩) (Call.update q) =
      ((⟨true, some q, some p, src'⟩, ⟨true, lp⟩), []) := by
  simp [sysStep, coordStep, update, zoneRun, zoneStep, zoneOnChanged, hq, hap]

/-- A position update landing outside the zone while the zone is marked inside
with a cached payload: falling edge — `onLeave` fires once with the cache. -/
theorem sysStep_update_leave (z : ZoneCfg) (pos q : Vector2) (pl : Option DragPayload)
    (src' : Option Nat) (p0 : DragPayload) (hq : within z q = false) :
    sysStep z (⟨true, some pos, pl, src'⟩, ⟨true, some p0⟩) (Call.update q) =
      ((⟨true, some q, pl, src'⟩, ⟨false, none⟩), [ZEvent.leave p0]) := by
  simp [sysStep, coordStep, update, zoneRun, zoneStep, zoneOnChanged, hq]

/-- Ending an active session while the zone is marked inside with a cached
payload: `onDrop` fires once with the cache (from the end-channel), and the
closing change-broadcast fires nothing further. -/
theorem sysStep_endDrag_inside (z : ZoneCfg) (pos : Vector2) (pl : Option DragPayload)
    (src' : Option Nat) (p0 : DragPayload) :
    sysStep z (⟨true, some pos, pl, src'⟩, ⟨true, some p0⟩) Call.endDrag =
      ((⟨false, none, none, none⟩, ⟨false, none⟩), [ZEvent.drop p0]) := by
  simp [sysStep, coordStep, endDrag, zoneRun, zoneStep, zoneOnEnded, zoneOnChanged]

/-- A run of updates all landing outside the zone keeps the zone silent and
untouched; only the session's position moves. -/
theorem sysRun_updates_outside (z : ZoneCfg) (outs : List Vector2)
    (houts : ∀ q ∈ outs, within z q = false) (pos : Vector2) (pl : Option DragPayload)
    (src' : Option Nat) (zs : ZoneState) (hzs : zs.inside = false) :
    sysRun z (⟨true, some pos, pl, src'⟩, zs) (outs.map Call.update) =
      ((⟨true, some (outs.getLastD pos), pl, src'⟩, zs), []) := by
  induction outs generalizing pos with
  | nil => simp [sysRun]
  | cons q l ih =>
    rw [List.map_cons, sysRun_cons,
      sysStep_update_outside z pos q pl src' zs hzs (houts q (by simp))]
    simp only [List.getLastD_cons]
    rw [ih (fun r hr => houts r (by simp [hr])) q]
    simp

/-- A run of updates all staying inside the zone with an accepted payload keeps
a marked zone silent and its cache intact. -/
theorem sysRun_updates_inside (z : ZoneCfg) (ins : List Vector2)
    (hins : ∀ q ∈ ins, within z q = true) (pos : Vector2) (p : DragPayload)
    (hap : acceptsPayload z.accepts (some p) = true)
    (src' : Option Nat) (lp : Option DragPayload) :
    sysRun z (⟨true, some pos, some p, src'⟩, ⟨true, lp⟩) (ins.map Call.update) =
      ((⟨true, some (ins.getLastD pos), some p, src'⟩, ⟨true, lp⟩), []) := by
  induction ins generalizing pos with
  | nil => simp [sysRun]
  | cons q l ih =>
    rw [List.map_cons, sysRun_cons,
      sysStep_update_stay_inside z pos q p src' lp (hins q (by simp)) hap]
    simp only [List.getLastD_cons]
    rw [ih (fun r hr => hins r (by simp [hr])) q]
    simp

/-! ## C5: enter exactly once, leave exactly once -/

/-- C5: with `accepts = ["item"]` and a session of payload type `"item"`
started outside the zone, any run of updates that stays outside, then moves
inside (one or more updates), then moves back outside (one or more updates)
produces exactly the callback trace `[onEnter payload, onLeave payload]`:
one `onEnter` on the rising edge, none while stationary inside, one `onLeave`
on the falling edge. -/
theorem C5_enter_once_leave_once (z : ZoneCfg) (hz : z.accepts = Accepts.tags ["item"])
    (p : DragPayload) (hp : p.type = "item") (src : Option Nat)
    (pos0 : Vector2) (h0 : within z pos0 = false)
    (outs1 ins outs2 : List Vector2)
    (h1 : ∀ q ∈ outs1, within z q = false)
    (h2 : ∀ q ∈ ins, within z q = true) (h2ne : ins ≠ [])
    (h3 : ∀ q ∈ outs2, within z q = false) (h3ne : outs2 ≠ []) :
    (sysRun z (initState, initZone)
        (Call.start p pos0 src :: (outs1 ++ ins ++ outs2).map Call.update)).2 =
      [ZEvent.enter p, ZEvent.leave p] := by
  have hap : acceptsPayload z.accepts (some p) = true := by
    simp [acceptsPayload, hz, hp]
  obtain ⟨i0, ins', rfl⟩ := List.exists_cons_of_ne_nil h2ne
  obtain ⟨o0, outs2', rfl⟩ := List.exists_cons_of_ne_nil h3ne
  have hi0 : within z i0 = true := h2 i0 (by simp)
  have ho0 : within z o0 = false := h3 o0 (by simp)
  have e1 := sysStep_start_outside z p pos0 src initState initZone rfl h0
  have e2 := sysRun_updates_outside z outs1 h1 pos0 (some p)
    (src.orElse fun _ => p.source) initZone rfl
  have e3 := sysStep_update_enter z (outs1.getLastD pos0) i0 p
    (src.orElse fun _ => p.source) initZone rfl hi0 hap
  have e4 := sysRun_updates_inside z ins' (fun r hr => h2 r (by simp [hr])) i0 p hap
    (src.orElse fun _ => p.source) (some p)
  have e5 := sysStep_update_leave z (ins'.getLastD i0) o0 (some p)
    (src.orElse fun _ => p.source) p ho0
  have e6 := sysRun_updates_outside z outs2' (fun r hr => h3 r (by simp [hr])) o0 (some p)
    (src.orElse fun _ => p.source) ⟨false, none⟩ rfl
  simp only [List.map_append, List.map_cons, List.append_assoc, List.cons_append,
    sysRun_cons, sysRun_append, e1, e2, e3, e4, e5, e6]
  simp

/-- Witness for C5: concrete zone x,y ∈ [0,100], one stray outside update, two
inside updates, one outside update. -/
theorem C5_enter_once_leave_once_witness :
    (sysRun zW (initState, initZone)
        (Call.start pW ⟨200, 200⟩ none ::
          ((([⟨150, 50⟩] : List Vector2) ++ ([⟨50, 50⟩, ⟨60, 60⟩] : List Vector2) ++
            ([⟨200, 0⟩] : List Vector2)).map Call.update))).2 =
      [ZEvent.enter pW, ZEvent.leave pW] :=
  C5_enter_once_leave_once zW rfl pW rfl none ⟨200, 200⟩ (by decide)
    [⟨150, 50⟩] [⟨50, 50⟩, ⟨60, 60⟩] [⟨200, 0⟩]
    (by decide) (by decide) (by decide) (by decide) (by decide)

/-! ## C7: drop commit -/

/-- C7: a session started outside, moved inside the zone while eligible, then
ended with `endDrag()` yields the trace `[onEnter payload, onDrop payload]` —
exactly one `onDrop`, carrying the payload cached at enter time (the session
itself is already cleared when the end-channel fires); and a session ended
while the zone is not marked inside fires no `onDrop` from the zone's
end-handler. -/
theorem C7_drop_fires_iff_inside (z : ZoneCfg) (p : DragPayload)
    (hap : acceptsPayload z.accepts (some p) = true) (src : Option Nat)
    (pos0 q : Vector2) (h0 : within z pos0 = false) (hq : within z q = true)
    (zs : ZoneState) (s : DragState) (hzs : zs.inside = false) :
    (sysRun z (initState, initZone)
        [Call.start p pos0 src, Call.update q, Call.endDrag]).2 =
      [ZEvent.enter p, ZEvent.drop p] ∧
    (zoneOnEnded zs s).2 = [] := by
  constructor
  · have e1 := sysStep_start_outside z p pos0 src initState initZone rfl h0
    have e2 := sysStep_update_enter z pos0 q p (src.orElse fun _ => p.source)
      initZone rfl hq hap
    have e3 := sysStep_endDrag_inside z q (some p) (src.orElse fun _ => p.source) p
    simp only [sysRun_cons, e1, e2, e3]
    simp [sysRun]
  · simp [zoneOnEnded, hzs]

/-- Witness for C7: concrete zone, session started outside, moved to (50,50),
then ended. -/
theorem C7_drop_fires_iff_inside_witness :
    (sysRun zW (initState, initZone)
        [Call.start pW ⟨200, 200⟩ none, Call.update ⟨50, 50⟩, Call.endDrag]).2 =
      [ZEvent.enter pW, ZEvent.drop pW] ∧
    (zoneOnEnded initZone initState).2 = [] :=
  C7_drop_fires_iff_inside zW pW (by decide) none ⟨200, 200⟩ ⟨50, 50⟩ (by decide)
    (by decide) initZone initState rfl

/-! ## C8: accept filtering -/

/-- Whether a lifecycle call only ever introduces payloads of type "other". -/
def startsOther : Call → Bool
  | Call.start p _ _ => p.type == "other"
  | _ => true

/-- Whether a zone callback invocation is an `onEnter`. -/
def isEnter : ZEvent → Bool
  | ZEvent.enter _ => true
  | _ => false

/-- The session payload is absent or of type "other". -/
def payloadOther : Option DragPayload → Bool
  | none => true
  | some p => p.type == "other"

/-- A zone accepting only tag "item" rejects a payload of type "other". -/
theorem accepts_item_rejects_other (pl : Option DragPayload)
    (hpl : payloadOther pl = true) :
    acceptsPayload (Accepts.tags ["item"]) pl = false := by
  cases pl with
  | none => simp [acceptsPayload]
  | some p' =>
    have hp' : p'.type = "other" := by simpa [payloadOther] using hpl
    simp [acceptsPayload, hp']

/-- Invariant run for C8: while every started payload has type "other", a zone
accepting only "item" emits no callback at all, the session payload stays
absent-or-"other", and the zone stays unmarked. -/
theorem C8_aux (z : ZoneCfg) (hz : z.accepts = Accepts.tags ["item"]) :
    ∀ (cs : List Call) (ds : DragState) (zs : ZoneState),
      payloadOther ds.payload = true → zs.inside = false →
      cs.all startsOther = true →
      (sysRun z (ds, zs) cs).2 = [] ∧
      payloadOther ((sysRun z (ds, zs) cs).1.1.payload) = true ∧
      ((sysRun z (ds, zs) cs).1.2.inside) = false := by
  intro cs
  induction cs with
  | nil =>
    intro ds zs h1 h2 _
    exact ⟨rfl, h1, h2⟩
  | cons c l ih =>
    intro ds zs h1 h2 hall
    rw [List.all_cons, Bool.and_eq_true] at hall
    obtain ⟨hc, hl⟩ := hall
    cases c with
    | start p' pos src =>
      have hp' : p'.type = "other" := by
        simpa [startsOther] using hc
      have hacc : acceptsPayload z.accepts (some p') = false := by
        rw [hz]
        exact accepts_item_rejects_other (some p') (by simp [payloadOther, hp'])
      have hstep : sysStep z (ds, zs) (Call.start p' pos src) =
          ((⟨true, some pos, some p', src.orElse fun _ => p'.source⟩, zs), []) := by
        simp [sysStep, coordStep, startDrag, zoneRun, zoneStep, zoneOnChanged, hacc, h2]
      rw [sysRun_cons, hstep]
      simpa using ih ⟨true, some pos, some p', src.orElse fun _ => p'.source⟩ zs
        (by simp [payloadOther, hp']) h2 hl
    | update pos =>
      cases hda : ds.active with
      | false =>
        have hstep : sysStep z (ds, zs) (Call.update pos) = ((ds, zs), []) := by
          simp [sysStep, coordStep, update, hda, zoneRun]
        rw [sysRun_cons, hstep]
        simpa using ih ds zs h1 h2 hl
      | true =>
        have hacc : acceptsPayload z.accepts ds.payload = false := by
          rw [hz]
          exact accepts_item_rejects_other ds.payload h1
        have hstep : sysStep z (ds, zs) (Call.update pos) =
            (({ ds with position := some pos }, zs), []) := by
          simp [sysStep, coordStep, update, hda, zoneRun, zoneStep, zoneOnChanged,
            hacc, h2]
        rw [sysRun_cons, hstep]
        simpa using ih { ds with position := some pos } zs (by simpa using h1) h2 hl
    | endDrag =>
      cases hda : ds.active with
      | false =>
        have hstep : sysStep z (ds, zs) Call.endDrag = ((ds, zs), []) := by
          simp [sysStep, coordStep, endDrag, hda, zoneRun]
        rw [sysRun_cons, hstep]
        simpa using ih ds zs h1 h2 hl
      | true =>
        have hstep : sysStep z (ds, zs) Call.endDrag =
            ((⟨false, none, none, none⟩, ⟨false, none⟩), []) := by
          simp [sysStep, coordStep, endDrag, hda, zoneRun, zoneStep, zoneOnEnded,
            zoneOnChanged, h2]
        rw [sysRun_cons, hstep]
        simpa using ih ⟨false, none, none, none⟩ ⟨false, none⟩ rfl rfl hl

/-- C8: under `accepts = ["item"]`, a zone observing any call sequence whose
started payloads all have type "other" never fires `onEnter` — indeed it fires
nothing — even when positions land geometrically inside its rectangle. -/
theorem C8_other_payload_never_enters (z : ZoneCfg)
    (hz : z.accepts = Accepts.tags ["item"]) (cs : List Call)
    (hcs : cs.all startsOther = true) :
    ((sysRun z (initState, initZone) cs).2).all (fun e => !(isEnter e)) = true := by
  have h := C8_aux z hz cs initState initZone rfl rfl hcs
  rw [h.1]
  rfl

/-- Witness for C8: an "other" payload started and moved at positions inside
the witness zone's rectangle. -/
theorem C8_other_payload_never_enters_witness :
    ((sysRun zW (initState, initZone)
        [Call.start ⟨"other", none, none⟩ ⟨50, 50⟩ none, Call.update ⟨60, 60⟩]).2).all
      (fun e => !(isEnter e)) = true :=
  C8_other_payload_never_enters zW rfl
    [Call.start ⟨"other", none, none⟩ ⟨50, 50⟩ none, Call.update ⟨60, 60⟩] (by decide)

end SSFusion
